import Mathlib

/-!
Shallow embedding of `miriperformance_tools.py` from the repository
STScI-MIRI/JDox-SensitivityAndSaturationLimits, together with theorems
settling the specification claims about it.

The module loads precomputed sensitivity and saturation tables from
`.npz` archives and renders diagnostic plots.  We model

* numpy values as a dynamic tree of rationals (`NpVal`),
* an archive (`NpzData`) as a record of named `NpVal` fields,
* the filesystem as an oracle (`FileSystem`) for directory existence,
  glob matching and file contents,
* the plotting side effects as a list of `PlotEvent`s (curves drawn
  with their legend labels, and `savefig` calls with their paths),
* Python exceptions of `load_data` as the `LoadError` enumeration,
  where `attributeError` stands for the `AttributeError` raised by
  `None.strip()` and the other constructors for the four
  `AssertionError` conditions.

Cosmetic matplotlib state (figure sizes, axis labels, titles,
annotations, grid, colors, line widths) is not modelled: no claim
refers to it.  Everything below is translated directly from the
source file.
-/

namespace MiriPerformance

/-- Dynamic numpy value: a scalar or a (possibly nested) array. -/
inductive NpVal where
  | scalar (q : ℚ)
  | arr (elems : List NpVal)

mutual

/-- Broadcast division of a numpy value by a scalar, as in
`data[sat_limits][0] / frame_ratio` in the source. -/
def NpVal.divQ : NpVal → ℚ → NpVal
  | NpVal.scalar q, r => NpVal.scalar (q / r)
  | NpVal.arr es, r => NpVal.arr (NpVal.divQList es r)

/-- Elementwise broadcast division over the elements of an array. -/
def NpVal.divQList : List NpVal → ℚ → List NpVal
  | [], _ => []
  | e :: es, r => NpVal.divQ e r :: NpVal.divQList es r

end

/-- Indexing a numpy value, as in `data[wavelengths][i]`.  Out-of-range
or scalar indexing is a Python error; it is modelled by a default value
and never exercised by the claims. -/
def NpVal.index : NpVal → Nat → NpVal
  | NpVal.arr es, i => es.getD i (NpVal.scalar 0)
  | NpVal.scalar _, _ => NpVal.scalar 0

/-- The named arrays of one `.npz` archive, as the plot routines access
them: `wavelengths`, `lim_fluxes`, `sat_limits` and `configs`. -/
structure NpzData where
  wavelengths : NpVal
  lim_fluxes : NpVal
  sat_limits : NpVal
  configs : NpVal

/-- Oracle for the filesystem operations used by `load_data`:
`os.path.isdir`, `glob.glob`, and `np.load` of a path. -/
structure FileSystem where
  isdir : String → Bool
  glob : String → List String
  read : String → NpzData

/-- Failure conditions of `load_data`: the four assertion messages and
the `AttributeError` raised when `version` is `None` at the
`version.strip()` call. -/
inductive LoadError where
  | modeNotRecognised
  | sourceTypeNotRecognised
  | attributeError
  | dataDirNotFound
  | noSingleFileMatch
  deriving DecidableEq

/-- The mode whitelist of the first assertion in `load_data`. -/
def validModes : List String := ["imaging", "lrs", "mrs"]

/-- The source-type whitelist of the second assertion in `load_data`. -/
def validSrcs : List String := ["point", "extended"]

/-- Directory composed from the ETC version:
`./data_files/ETC{}/`.format(version.strip()). -/
def dataDir (v : String) : String := "./data_files/ETC" ++ v.trim ++ "/"

/-- Filename glob composed from mode and source type. -/
def fnamePattern (mode src : String) : String :=
  if src == "extended" then "miri_" ++ mode ++ "_sensitivity_extended*.npz"
  else "miri_" ++ mode ++ "_sensitivity.npz"

/-- The `load_data` function of the source: check mode, check source
type, strip the version (an `AttributeError` when it is `None`), check
the data directory, glob for the file, insist on a unique match, and
load the matched archive unchanged. -/
def load_data (fs : FileSystem) (version : Option String) (mode src : String) :
    Except LoadError NpzData :=
  if mode ∈ validModes then
    if src ∈ validSrcs then
      match version with
      | none => Except.error LoadError.attributeError
      | some v =>
        if fs.isdir (dataDir v) then
          match fs.glob (dataDir v ++ fnamePattern mode src) with
          | [p] => Except.ok (fs.read p)
          | _ => Except.error LoadError.noSingleFileMatch
        else Except.error LoadError.dataDirNotFound
    else Except.error LoadError.sourceTypeNotRecognised
  else Except.error LoadError.modeNotRecognised

/-- Observable plotting effects: a curve drawn with its legend label,
or a figure saved to a path. -/
inductive PlotEvent where
  | curve (x y : NpVal) (label : String)
  | savefig (path : String)

/-- Legend label of an event (empty for a save). -/
def eventLabel : PlotEvent → String
  | PlotEvent.curve _ _ lab => lab
  | PlotEvent.savefig _ => ""

/-- The `if save: plt.savefig(new_outfile)` pattern of the source. -/
def saveEvents (save : Bool) (path : String) : List PlotEvent :=
  if save then [PlotEvent.savefig path] else []

/-- The paths written by `plt.savefig` among a list of events. -/
def savedPaths (evs : List PlotEvent) : List String :=
  evs.filterMap fun e => match e with
    | PlotEvent.savefig p => some p
    | PlotEvent.curve _ _ _ => none

/-- Events of a routine result, empty when the routine raised. -/
def eventsOf (r : Except LoadError (List PlotEvent)) : List PlotEvent :=
  match r with
  | Except.ok e => e
  | Except.error _ => []

/-- Rendering of the version argument by `str.format`, as Python
prints it: `None` renders as the string `None`. -/
def pyFormat : Option String → String
  | none => "None"
  | some s => s

/-- The `outfile.split(.)[0]` stem used in the output paths. -/
def stem (outfile : String) : String := (outfile.splitOn ".").headD ""

/-- The LRS slitless readout-cadence constant of the source,
`frame_ratio = 0.159 / 2.7705`. -/
def frame_ratio : ℚ := 0.159 / 2.7705

/-- The MRS short-band channel indices, `ishort = [0, 3, 6, 9]`. -/
def ishort : List Nat := [0, 3, 6, 9]

/-- The MRS medium-band channel indices, `imed = [i + 1 for i in ishort]`. -/
def imed : List Nat := ishort.map fun i => i + 1

/-- The MRS long-band channel indices, `ilong = [i + 2 for i in ishort]`. -/
def ilong : List Nat := ishort.map fun i => i + 2

/-- The per-channel legend labels of the MRS loops, `mrslabs`. -/
def mrslabs : List String :=
  ["MRS short", "", "", "", "MRS medium", "", "", "", "MRS long", "", "", ""]

/-- The three MRS band loops of the source: curves for the short
channel indices, then the medium ones, then the long ones, each with
the `mrslabs` entry of its channel index as legend label. -/
def mrsBandCurves (w y : NpVal) : List PlotEvent :=
  (ishort.map fun sh => PlotEvent.curve (w.index sh) (y.index sh) (mrslabs.getD sh ""))
    ++ (imed.map fun m => PlotEvent.curve (w.index m) (y.index m) (mrslabs.getD m ""))
    ++ (ilong.map fun l => PlotEvent.curve (w.index l) (y.index l) (mrslabs.getD l ""))

/-- One loop iteration of `make_imager_plots` for source type `s`:
the sensitivity curve and optional save, then the saturation curve
and optional save. -/
def imagerModeEvents (d : NpzData) (version : Option String) (save : Bool)
    (outfile s : String) : List PlotEvent :=
  [PlotEvent.curve d.wavelengths d.lim_fluxes "min detectable signal"]
    ++ saveEvents save
      ("plots/ETC" ++ pyFormat version ++ "/" ++ stem outfile ++ "_" ++ s ++ "_sens.png")
    ++ [PlotEvent.curve d.wavelengths d.sat_limits "saturation limits"]
    ++ saveEvents save
      ("plots/ETC" ++ pyFormat version ++ "/imager_" ++ stem outfile ++ "_" ++ s ++ "_sat.png")

/-- `make_imager_plots`: loads imaging data for point and extended
sources and renders two figures for each. -/
def make_imager_plots (fs : FileSystem) (version : Option String) (save : Bool)
    (outfile style : String) : Except LoadError (List PlotEvent) :=
  match load_data fs version "imaging" "point", load_data fs version "imaging" "extended" with
  | Except.ok dP, Except.ok dE =>
      Except.ok (imagerModeEvents dP version save outfile "point"
        ++ imagerModeEvents dE version save outfile "extended")
  | Except.error e, _ => Except.error e
  | _, Except.error e => Except.error e

/-- The single loop iteration of `make_lrs_plots` (`src = [point]`):
slit and slitless sensitivity curves with optional save, then slit and
slitless saturation curves, the slitless one divided elementwise by
`frame_ratio`, with optional save. -/
def lrsModeEvents (d : NpzData) (version : Option String) (save : Bool)
    (outfile s : String) : List PlotEvent :=
  [PlotEvent.curve (d.wavelengths.index 1) (d.lim_fluxes.index 1) "slit",
   PlotEvent.curve (d.wavelengths.index 0) (d.lim_fluxes.index 0) "slitless"]
    ++ saveEvents save
      ("plots/ETC" ++ pyFormat version ++ "/lrs_" ++ stem outfile ++ "_" ++ s ++ "_sens.png")
    ++ [PlotEvent.curve (d.wavelengths.index 1) (d.sat_limits.index 1) "slit",
     PlotEvent.curve (d.wavelengths.index 0) ((d.sat_limits.index 0).divQ frame_ratio) "slitless"]
    ++ saveEvents save
      ("plots/ETC" ++ pyFormat version ++ "/lrs_" ++ stem outfile ++ "_" ++ s ++ "_sat.png")

/-- `make_lrs_plots`: loads LRS point-source data and renders the
sensitivity and bright-limit figures. -/
def make_lrs_plots (fs : FileSystem) (version : Option String) (save : Bool)
    (outfile style : String) : Except LoadError (List PlotEvent) :=
  match load_data fs version "lrs" "point" with
  | Except.ok d => Except.ok (lrsModeEvents d version save outfile "point")
  | Except.error e => Except.error e

/-- One loop iteration of `make_mrs_plots` for source type `s`: the
twelve sensitivity band curves with optional save, then the twelve
saturation band curves with optional save. -/
def mrsModeEvents (d : NpzData) (version : Option String) (save : Bool)
    (outfile s : String) : List PlotEvent :=
  mrsBandCurves d.wavelengths d.lim_fluxes
    ++ saveEvents save
      ("plots/ETC" ++ pyFormat version ++ "/mrs_" ++ stem outfile ++ "_" ++ s ++ "_sens.png")
    ++ mrsBandCurves d.wavelengths d.sat_limits
    ++ saveEvents save
      ("plots/ETC" ++ pyFormat version ++ "/mrs_" ++ stem outfile ++ "_" ++ s ++ "_sat.png")

/-- `make_mrs_plots`: loads MRS data for point and extended sources
and renders two figures for each. -/
def make_mrs_plots (fs : FileSystem) (version : Option String) (save : Bool)
    (outfile style : String) : Except LoadError (List PlotEvent) :=
  match load_data fs version "mrs" "point", load_data fs version "mrs" "extended" with
  | Except.ok dP, Except.ok dE =>
      Except.ok (mrsModeEvents dP version save outfile "point"
        ++ mrsModeEvents dE version save outfile "extended")
  | Except.error e, _ => Except.error e
  | _, Except.error e => Except.error e

/-- `sens_plot`: overlays the point-source sensitivity curves of all
three modes on one figure; the save path is built from the version
only and the `outfile` argument is never used. -/
def sens_plot (fs : FileSystem) (version : Option String) (save : Bool)
    (outfile style : String) : Except LoadError (List PlotEvent) :=
  match load_data fs version "imaging" "point", load_data fs version "lrs" "point",
      load_data fs version "mrs" "point" with
  | Except.ok dI, Except.ok dL, Except.ok dM =>
      Except.ok
        ([PlotEvent.curve dI.wavelengths dI.lim_fluxes "imager",
          PlotEvent.curve (dL.wavelengths.index 0) (dL.lim_fluxes.index 0) "LRS slitless",
          PlotEvent.curve (dL.wavelengths.index 1) (dL.lim_fluxes.index 1) "LRS slit"]
          ++ mrsBandCurves dM.wavelengths dM.lim_fluxes
          ++ saveEvents save
            ("plots/ETC" ++ pyFormat version ++ "/sens_all_point_v" ++ pyFormat version ++ ".png"))
  | Except.error e, _, _ => Except.error e
  | _, Except.error e, _ => Except.error e
  | _, _, Except.error e => Except.error e

/-- `bright_plot`: overlays the point-source bright-limit curves of
all three modes on one figure, dividing the LRS slitless saturation
array by `frame_ratio`; the save path is built from the version only
and the `outfile` argument is never used. -/
def bright_plot (fs : FileSystem) (version : Option String) (save : Bool)
    (outfile style : String) : Except LoadError (List PlotEvent) :=
  match load_data fs version "imaging" "point", load_data fs version "lrs" "point",
      load_data fs version "mrs" "point" with
  | Except.ok dI, Except.ok dL, Except.ok dM =>
      Except.ok
        ([PlotEvent.curve dI.wavelengths dI.sat_limits "imager",
          PlotEvent.curve (dL.wavelengths.index 0)
            ((dL.sat_limits.index 0).divQ frame_ratio) "LRS slitless",
          PlotEvent.curve (dL.wavelengths.index 1) (dL.sat_limits.index 1) "LRS slit"]
          ++ mrsBandCurves dM.wavelengths dM.sat_limits
          ++ saveEvents save
            ("plots/ETC" ++ pyFormat version ++ "/bright_all_point_v" ++ pyFormat version ++ ".png"))
  | Except.error e, _, _ => Except.error e
  | _, Except.error e, _ => Except.error e
  | _, _, Except.error e => Except.error e

/-- The imaging fixture of the specification scenario:
`wavelengths = [5, 10, 15]`, `lim_fluxes = [1e-3, 1e-4, 1e-5]`,
`sat_limits = [10, 8, 6]`. -/
def fixtureData : NpzData where
  wavelengths := NpVal.arr [NpVal.scalar 5, NpVal.scalar 10, NpVal.scalar 15]
  lim_fluxes := NpVal.arr [NpVal.scalar (1 / 1000), NpVal.scalar (1 / 10000),
    NpVal.scalar (1 / 100000)]
  sat_limits := NpVal.arr [NpVal.scalar 10, NpVal.scalar 8, NpVal.scalar 6]
  configs := NpVal.arr []

/-- A filesystem on which every directory exists, every glob matches
the single file `pth`, and every read yields `fixtureData`. -/
def fsFix : FileSystem where
  isdir := fun _ => true
  glob := fun _ => ["pth"]
  read := fun _ => fixtureData

/-- A filesystem on which every directory exists but no glob matches. -/
def fsNone : FileSystem where
  isdir := fun _ => true
  glob := fun _ => []
  read := fun _ => fixtureData

/-- LRS fixture data with slitless `sat_limits` entry `[100]` (index 0)
and slit entry `[200]` (index 1). -/
def lrs100Data : NpzData where
  wavelengths := NpVal.arr [NpVal.arr [NpVal.scalar 6], NpVal.arr [NpVal.scalar 7]]
  lim_fluxes := NpVal.arr [NpVal.arr [NpVal.scalar 1], NpVal.arr [NpVal.scalar 2]]
  sat_limits := NpVal.arr [NpVal.arr [NpVal.scalar 100], NpVal.arr [NpVal.scalar 200]]
  configs := NpVal.arr []

/-- A filesystem whose unique matching archive holds `lrs100Data`. -/
def fsLrs100 : FileSystem where
  isdir := fun _ => true
  glob := fun _ => ["pth"]
  read := fun _ => lrs100Data

/-- Helper: when mode and source type are valid, the data directory
exists and the glob matches exactly one file, `load_data` returns the
content of that file. -/
theorem load_data_resolves (fs : FileSystem) (v mode src p : String)
    (hm : mode ∈ validModes) (hs : src ∈ validSrcs)
    (hd : fs.isdir (dataDir v) = true)
    (hg : fs.glob (dataDir v ++ fnamePattern mode src) = [p]) :
    load_data fs (some v) mode src = Except.ok (fs.read p) := by
  simp [load_data, hm, hs, hd, hg]

/-- C2: for a mode outside the imaging/lrs/mrs whitelist, `load_data`
fails with the mode-not-recognised condition, and its result does not
depend on the filesystem (no filesystem access is performed); for a
valid mode and a source type outside the point/extended whitelist, it
fails with the source-type-not-recognised condition, again
independently of the filesystem. -/
theorem load_data_invalid_mode_src (fs fs2 : FileSystem) (version : Option String)
    (mode src : String) :
    (mode ∉ validModes →
      load_data fs version mode src = Except.error LoadError.modeNotRecognised ∧
      load_data fs version mode src = load_data fs2 version mode src) ∧
    (mode ∈ validModes → src ∉ validSrcs →
      load_data fs version mode src = Except.error LoadError.sourceTypeNotRecognised ∧
      load_data fs version mode src = load_data fs2 version mode src) := by
  constructor
  · intro hm
    constructor <;> simp [load_data, hm]
  · intro hm hs
    constructor <;> simp [load_data, hm, hs]

/-- Witness for C2: the invalid mode `specmode` and, for the valid
mode `imaging`, the invalid source type `diffuse`, on a concrete
filesystem. -/
theorem load_data_invalid_mode_src_witness :
    load_data fsFix (some "14") "specmode" "point"
        = Except.error LoadError.modeNotRecognised ∧
    load_data fsFix (some "14") "imaging" "diffuse"
        = Except.error LoadError.sourceTypeNotRecognised := by
  constructor
  · exact ((load_data_invalid_mode_src fsFix fsNone (some "14") "specmode" "point").1
      (by decide)).1
  · exact ((load_data_invalid_mode_src fsFix fsNone (some "14") "imaging" "diffuse").2
      (by decide) (by decide)).1

/-- C3: for valid mode and source type, when the data directory
exists, `load_data` fails with the no-single-file-match condition
whenever the number of glob matches differs from one, and returns the
load of the unique matching file when there is exactly one match. -/
theorem load_data_unique_match (fs : FileSystem) (v mode src : String)
    (hm : mode ∈ validModes) (hs : src ∈ validSrcs)
    (hd : fs.isdir (dataDir v) = true) :
    ((fs.glob (dataDir v ++ fnamePattern mode src)).length ≠ 1 →
      load_data fs (some v) mode src = Except.error LoadError.noSingleFileMatch) ∧
    (∀ p, fs.glob (dataDir v ++ fnamePattern mode src) = [p] →
      load_data fs (some v) mode src = Except.ok (fs.read p)) := by
  constructor
  · intro hlen
    match hsplit : fs.glob (dataDir v ++ fnamePattern mode src) with
    | [] => simp [load_data, hm, hs, hd, hsplit]
    | [q] =>
      have hone : (fs.glob (dataDir v ++ fnamePattern mode src)).length = 1 := by
        rw [hsplit]; rfl
      exact (hlen hone).elim
    | q :: r :: t => simp [load_data, hm, hs, hd, hsplit]
  · intro p hp
    exact load_data_resolves fs v mode src p hm hs hd hp

/-- Witness for C3: on `fsNone` the glob matches zero files and the
unique-match condition fires; on `fsFix` it matches exactly one file,
which is loaded. -/
theorem load_data_unique_match_witness :
    load_data fsNone (some "14") "imaging" "point"
        = Except.error LoadError.noSingleFileMatch ∧
    load_data fsFix (some "14") "imaging" "point" = Except.ok (fsFix.read "pth") := by
  constructor
  · exact (load_data_unique_match fsNone "14" "imaging" "point"
      (by decide) (by decide) rfl).1 (by decide)
  · exact (load_data_unique_match fsFix "14" "imaging" "point"
      (by decide) (by decide) rfl).2 "pth" rfl

/-- C7: on successful resolution, `load_data` returns the stored
archive exactly as the filesystem holds it, with no validation or
modification of shapes, lengths or values. -/
theorem load_data_returns_stored_record (fs : FileSystem) (v mode src p : String)
    (hm : mode ∈ validModes) (hs : src ∈ validSrcs)
    (hd : fs.isdir (dataDir v) = true)
    (hg : fs.glob (dataDir v ++ fnamePattern mode src) = [p]) :
    load_data fs (some v) mode src = Except.ok (fs.read p) ∧
    fs.read p = NpzData.mk (fs.read p).wavelengths (fs.read p).lim_fluxes
      (fs.read p).sat_limits (fs.read p).configs := by
  exact ⟨load_data_resolves fs v mode src p hm hs hd hg, rfl⟩

/-- Witness for C7: the imaging fixture scenario of the specification.
With the archive holding `wavelengths = [5, 10, 15]`,
`lim_fluxes = [1e-3, 1e-4, 1e-5]`, `sat_limits = [10, 8, 6]`, the
loader returns exactly these three arrays unmodified. -/
theorem load_data_returns_stored_record_witness :
    load_data fsFix (some "14") "imaging" "point" = Except.ok fixtureData ∧
    fixtureData.wavelengths
        = NpVal.arr [NpVal.scalar 5, NpVal.scalar 10, NpVal.scalar 15] ∧
    fixtureData.lim_fluxes = NpVal.arr [NpVal.scalar (1 / 1000),
      NpVal.scalar (1 / 10000), NpVal.scalar (1 / 100000)] ∧
    fixtureData.sat_limits = NpVal.arr [NpVal.scalar 10, NpVal.scalar 8, NpVal.scalar 6] := by
  refine ⟨?_, rfl, rfl, rfl⟩
  exact (load_data_returns_stored_record fsFix "14" "imaging" "point" "pth"
    (by decide) (by decide) rfl rfl).1

/-- C9: with the default `version = None` and valid mode and source
type, `load_data` raises the attribute error of `None.strip()`, which
is none of the four enumerated assertion conditions; the result again
does not depend on the filesystem. -/
theorem load_data_none_version (fs fs2 : FileSystem) (mode src : String)
    (hm : mode ∈ validModes) (hs : src ∈ validSrcs) :
    load_data fs none mode src = Except.error LoadError.attributeError ∧
    load_data fs none mode src = load_data fs2 none mode src ∧
    LoadError.attributeError ∉ [LoadError.modeNotRecognised,
      LoadError.sourceTypeNotRecognised, LoadError.dataDirNotFound,
      LoadError.noSingleFileMatch] := by
  refine ⟨?_, ?_, by decide⟩
  · simp [load_data, hm, hs]
  · simp [load_data, hm, hs]

/-- Witness for C9: `version = None`, mode `imaging`, source type
`point`, on a concrete filesystem. -/
theorem load_data_none_version_witness :
    load_data fsFix none "imaging" "point" = Except.error LoadError.attributeError := by
  exact (load_data_none_version fsFix fsNone "imaging" "point" (by decide) (by decide)).1

/-- Counterexample for C1: with a slitless saturation array `[100]`,
the value plotted by `make_lrs_plots` for the slitless configuration
is `100 / (0.159 / 2.7705) = 92350 / 53 = 1742.4528...`, which differs
from the claimed `1743.7` by more than `1` — far beyond floating-point
tolerance. -/
theorem lrs_rescaled_value_counterexample :
    eventsOf (make_lrs_plots fsLrs100 (some "14") false "out.png" "jdocs") =
      [PlotEvent.curve (NpVal.arr [NpVal.scalar 7]) (NpVal.arr [NpVal.scalar 2]) "slit",
       PlotEvent.curve (NpVal.arr [NpVal.scalar 6]) (NpVal.arr [NpVal.scalar 1]) "slitless",
       PlotEvent.curve (NpVal.arr [NpVal.scalar 7]) (NpVal.arr [NpVal.scalar 200]) "slit",
       PlotEvent.curve (NpVal.arr [NpVal.scalar 6])
         (NpVal.arr [NpVal.scalar (92350 / 53)]) "slitless"] ∧
    (1 : ℚ) < |92350 / 53 - 17437 / 10| := by
  constructor
  · have h100 : (100 : ℚ) / frame_ratio = 92350 / 53 := by
      norm_num [ frame_ratio]
    simp [make_lrs_plots, load_data, fsLrs100, lrs100Data, lrsModeEvents, saveEvents,
      eventsOf, NpVal.divQ, NpVal.divQList, NpVal.index, validModes, validSrcs, h100]
  · have habs : |(92350 / 53 : ℚ) - 17437 / 10| = 661 / 530 := by
      rw [abs_of_nonpos (by norm_num)]
      norm_num
    rw [habs]
    norm_num

/-- C1 as amended: in `make_lrs_plots` and `bright_plot` the slit
saturation curve is plotted unscaled while the slitless one is divided
elementwise by the constant `frame_ratio = 0.159 / 2.7705`; for a
slitless saturation value of `100` the plotted value is
`92350 / 53 = 1742.4528...` (approximately `1742.45`, not `1743.7`). -/
theorem lrs_slitless_rescaling (fs : FileSystem) (v outfile style : String) (save : Bool)
    (pI pL pM : String)
    (hd : fs.isdir (dataDir v) = true)
    (hgI : fs.glob (dataDir v ++ fnamePattern "imaging" "point") = [pI])
    (hgL : fs.glob (dataDir v ++ fnamePattern "lrs" "point") = [pL])
    (hgM : fs.glob (dataDir v ++ fnamePattern "mrs" "point") = [pM]) :
    make_lrs_plots fs (some v) save outfile style = Except.ok
      ([PlotEvent.curve ((fs.read pL).wavelengths.index 1)
          ((fs.read pL).lim_fluxes.index 1) "slit",
        PlotEvent.curve ((fs.read pL).wavelengths.index 0)
          ((fs.read pL).lim_fluxes.index 0) "slitless"]
        ++ saveEvents save
          ("plots/ETC" ++ v ++ "/lrs_" ++ stem outfile ++ "_" ++ "point" ++ "_sens.png")
        ++ [PlotEvent.curve ((fs.read pL).wavelengths.index 1)
            ((fs.read pL).sat_limits.index 1) "slit",
          PlotEvent.curve ((fs.read pL).wavelengths.index 0)
            (((fs.read pL).sat_limits.index 0).divQ frame_ratio) "slitless"]
        ++ saveEvents save
          ("plots/ETC" ++ v ++ "/lrs_" ++ stem outfile ++ "_" ++ "point" ++ "_sat.png")) ∧
    bright_plot fs (some v) save outfile style = Except.ok
      ([PlotEvent.curve ((fs.read pI).wavelengths) ((fs.read pI).sat_limits) "imager",
        PlotEvent.curve ((fs.read pL).wavelengths.index 0)
          (((fs.read pL).sat_limits.index 0).divQ frame_ratio) "LRS slitless",
        PlotEvent.curve ((fs.read pL).wavelengths.index 1)
          ((fs.read pL).sat_limits.index 1) "LRS slit"]
        ++ mrsBandCurves (fs.read pM).wavelengths (fs.read pM).sat_limits
        ++ saveEvents save ("plots/ETC" ++ v ++ "/bright_all_point_v" ++ v ++ ".png")) ∧
    NpVal.divQ (NpVal.arr [NpVal.scalar 100]) frame_ratio
      = NpVal.arr [NpVal.scalar (92350 / 53)] ∧
    |(92350 / 53 : ℚ) - 174245 / 100| < 1 / 100 := by
  have hL := load_data_resolves fs v "lrs" "point" pL (by decide) (by decide) hd hgL
  have hI := load_data_resolves fs v "imaging" "point" pI (by decide) (by decide) hd hgI
  have hM := load_data_resolves fs v "mrs" "point" pM (by decide) (by decide) hd hgM
  refine ⟨?_, ?_, ?_, ?_⟩
  · simp [make_lrs_plots, hL, lrsModeEvents, pyFormat]
  · simp [bright_plot, hI, hL, hM, pyFormat]
  · show NpVal.arr (NpVal.divQList [NpVal.scalar 100] frame_ratio) = _
    have h100 : (100 : ℚ) / frame_ratio = 92350 / 53 := by
      norm_num [ frame_ratio]
    simp [NpVal.divQList, NpVal.divQ, h100]
  · have habs : |(92350 / 53 : ℚ) - 174245 / 100| = 3 / 1060 := by
      rw [abs_of_nonneg (by norm_num)]
      norm_num
    rw [habs]
    norm_num

/-- Witness for C1 (amended): the rescaled slitless saturation value
for input `100`, via the theorem applied to a concrete filesystem. -/
theorem lrs_slitless_rescaling_witness :
    NpVal.divQ (NpVal.arr [NpVal.scalar 100]) frame_ratio
      = NpVal.arr [NpVal.scalar (92350 / 53)] :=
  (lrs_slitless_rescaling fsFix "14" "out.png" "jdocs" false "pth" "pth" "pth"
    rfl rfl rfl rfl).2.2.1

/-- C4: the MRS band loops draw the short band exactly from channel
indices 0, 3, 6, 9, the medium band exactly from 1, 4, 7, 10 and the
long band exactly from 2, 5, 8, 11, and nothing else (the equality
lists all curves the loops draw); `make_mrs_plots` consists exactly
of these band loops for the sensitivity and saturation fields of the
point and extended records. -/
theorem mrs_band_index_grouping (w y : List NpVal)
    (hw : 12 ≤ w.length) (hy : 12 ≤ y.length)
    (fs : FileSystem) (v outfile style : String) (save : Bool) (p q : String)
    (hd : fs.isdir (dataDir v) = true)
    (hp : fs.glob (dataDir v ++ fnamePattern "mrs" "point") = [p])
    (hq : fs.glob (dataDir v ++ fnamePattern "mrs" "extended") = [q]) :
    mrsBandCurves (NpVal.arr w) (NpVal.arr y) =
      ([0, 3, 6, 9].map fun i => PlotEvent.curve (w.getD i (NpVal.scalar 0))
        (y.getD i (NpVal.scalar 0)) (mrslabs.getD i ""))
      ++ ([1, 4, 7, 10].map fun i => PlotEvent.curve (w.getD i (NpVal.scalar 0))
        (y.getD i (NpVal.scalar 0)) (mrslabs.getD i ""))
      ++ ([2, 5, 8, 11].map fun i => PlotEvent.curve (w.getD i (NpVal.scalar 0))
        (y.getD i (NpVal.scalar 0)) (mrslabs.getD i "")) ∧
    make_mrs_plots fs (some v) save outfile style =
      Except.ok (mrsModeEvents (fs.read p) (some v) save outfile "point"
        ++ mrsModeEvents (fs.read q) (some v) save outfile "extended") := by
  constructor
  · rfl
  · have hP := load_data_resolves fs v "mrs" "point" p (by decide) (by decide) hd hp
    have hE := load_data_resolves fs v "mrs" "extended" q (by decide) (by decide) hd hq
    simp [make_mrs_plots, hP, hE]

/-- Twelve scalar entries, a minimal well-shaped MRS field. -/
def twelveZeros : List NpVal := List.replicate 12 (NpVal.scalar 0)

/-- Witness for C4: the band grouping instantiated at a concrete
twelve-element record. -/
theorem mrs_band_index_grouping_witness :
    mrsBandCurves (NpVal.arr twelveZeros) (NpVal.arr twelveZeros) =
      ([0, 3, 6, 9].map fun i => PlotEvent.curve (twelveZeros.getD i (NpVal.scalar 0))
        (twelveZeros.getD i (NpVal.scalar 0)) (mrslabs.getD i ""))
      ++ ([1, 4, 7, 10].map fun i => PlotEvent.curve (twelveZeros.getD i (NpVal.scalar 0))
        (twelveZeros.getD i (NpVal.scalar 0)) (mrslabs.getD i ""))
      ++ ([2, 5, 8, 11].map fun i => PlotEvent.curve (twelveZeros.getD i (NpVal.scalar 0))
        (twelveZeros.getD i (NpVal.scalar 0)) (mrslabs.getD i "")) :=
  (mrs_band_index_grouping twelveZeros twelveZeros (by decide) (by decide)
    fsFix "14" "out.png" "jdocs" false "pth" "pth" rfl rfl rfl).1

/-- Counterexample for C5: in the MRS band loops the first curve of
the medium band (overall drawing position 4, channel index 1) carries
the empty label, not the band label `MRS medium`, which instead sits
on the second medium-band curve (position 5, channel index 4). -/
theorem mrs_band_label_counterexample :
    eventLabel ((mrsBandCurves (NpVal.arr []) (NpVal.arr [])).getD 4
        (PlotEvent.savefig "")) = "" ∧
    ("" : String) ≠ "MRS medium" ∧
    eventLabel ((mrsBandCurves (NpVal.arr []) (NpVal.arr [])).getD 5
        (PlotEvent.savefig "")) = "MRS medium" := by
  exact ⟨rfl, by decide, rfl⟩

/-- C5 as amended: each of the three MRS bands carries its legend
label on exactly one of its four curves and the empty label on the
rest, but the labelled curve is the first of the short band, the
second of the medium band and the third of the long band (the label
list is indexed by channel index, the loops by drawing order). -/
theorem mrs_band_label_placement (w y : NpVal) :
    (mrsBandCurves w y).map eventLabel =
      ["MRS short", "", "", "", "", "MRS medium", "", "", "", "", "MRS long", ""] := by
  rfl

/-- The saved-path form asserted by the specification,
`plots/ETC<version>/<basename>_<source>_<sens|sat>.png`, stated over
the character data of the path. -/
def savedPathHasForm (version path : String) : Prop :=
  ∃ base source tag : List Char,
    (tag = "sens".data ∨ tag = "sat".data) ∧
    path.data = ("plots/ETC".data ++ version.data ++ "/".data ++ base
      ++ "_".data ++ source ++ "_".data) ++ (tag ++ ".png".data)

/-- Helper: taking the length of the left part of an append returns
that left part. -/
theorem take_len_append {α : Type} (l1 l2 : List α) : (l1 ++ l2).take l1.length = l1 := by
  induction l1 with
  | nil => rfl
  | cons a t ih => simp [ih]

/-- Helper: dropping the length of the left part of an append returns
the right part. -/
theorem drop_len_append {α : Type} (l1 l2 : List α) : (l1 ++ l2).drop l1.length = l2 := by
  induction l1 with
  | nil => rfl
  | cons a t ih => simp [ih]

/-- Counterexample for C6: `sens_plot` with the save flag set writes
`plots/ETC14/sens_all_point_v14.png`, which does not have the claimed
form `plots/ETC<version>/<basename>_<source>_<sens|sat>.png` (its name
ends in `_v14.png`, not `_sens.png` or `_sat.png`). -/
theorem saved_path_form_counterexample :
    savedPaths (eventsOf (sens_plot fsFix (some "14") true "out.png" "jdocs")) =
      ["plots/ETC14/sens_all_point_v14.png"] ∧
    ¬ savedPathHasForm "14" "plots/ETC14/sens_all_point_v14.png" := by
  constructor
  · simp [sens_plot, load_data, fsFix, validModes, validSrcs, savedPaths, eventsOf,
      saveEvents, mrsBandCurves, ishort, imed, ilong, pyFormat]
  · rintro ⟨b, s, t, ht, heq⟩
    have l0 : (("plots/ETC14/sens_all_point_v14.png" : String).data).length = 34 := rfl
    have l1 : (("plots/ETC" : String).data).length = 9 := rfl
    have l2 : (("14" : String).data).length = 2 := rfl
    have l3 : (("/" : String).data).length = 1 := rfl
    have l4 : (("_" : String).data).length = 1 := rfl
    have l5 : (("sens" : String).data).length = 4 := rfl
    have l6 : ((".png" : String).data).length = 4 := rfl
    have l7 : (("sat" : String).data).length = 3 := rfl
    rcases ht with rfl | rfl
    · have hlen := congrArg List.length heq
      rw [l0] at hlen
      simp only [List.length_append, l1, l2, l3, l4, l5, l6] at hlen
      have hA : ("plots/ETC".data ++ ("14" : String).data ++ ("/" : String).data ++ b
          ++ ("_" : String).data ++ s ++ ("_" : String).data).length = 26 := by
        simp only [List.length_append, l1, l2, l3, l4]
        omega
      have hdrop := congrArg (List.drop 26) heq
      rw [← hA, drop_len_append, hA] at hdrop
      exact absurd hdrop (by decide)
    · have hlen := congrArg List.length heq
      rw [l0] at hlen
      simp only [List.length_append, l1, l2, l3, l4, l7, l6] at hlen
      have hA : ("plots/ETC".data ++ ("14" : String).data ++ ("/" : String).data ++ b
          ++ ("_" : String).data ++ s ++ ("_" : String).data).length = 27 := by
        simp only [List.length_append, l1, l2, l3, l4]
        omega
      have hdrop := congrArg (List.drop 27) heq
      rw [← hA, drop_len_append, hA] at hdrop
      exact absurd hdrop (by decide)

/-- C6 as amended: with the save flag set, the per-mode routines
`make_imager_plots`, `make_lrs_plots` and `make_mrs_plots` write files
at `plots/ETC<version>/<basename>_<source>_<sens|sat>.png`, where the
basename is the outfile stem carrying a routine-specific prefix
(none for the imager sensitivity file, `imager_` for the imager
saturation file, `lrs_` and `mrs_` for those modes); the combined
routines `sens_plot` and `bright_plot` ignore the outfile stem and
write the version-only paths `plots/ETC<version>/sens_all_point_v<version>.png`
and `plots/ETC<version>/bright_all_point_v<version>.png`, which do not
follow that form. -/
theorem saved_path_shapes (fs : FileSystem) (v outfile style : String)
    (pIp pIe pL pMp pMe : String)
    (hd : fs.isdir (dataDir v) = true)
    (h1 : fs.glob (dataDir v ++ fnamePattern "imaging" "point") = [pIp])
    (h2 : fs.glob (dataDir v ++ fnamePattern "imaging" "extended") = [pIe])
    (h3 : fs.glob (dataDir v ++ fnamePattern "lrs" "point") = [pL])
    (h4 : fs.glob (dataDir v ++ fnamePattern "mrs" "point") = [pMp])
    (h5 : fs.glob (dataDir v ++ fnamePattern "mrs" "extended") = [pMe]) :
    savedPaths (eventsOf (make_imager_plots fs (some v) true outfile style)) =
      ["plots/ETC" ++ v ++ "/" ++ stem outfile ++ "_" ++ "point" ++ "_sens.png",
       "plots/ETC" ++ v ++ "/imager_" ++ stem outfile ++ "_" ++ "point" ++ "_sat.png",
       "plots/ETC" ++ v ++ "/" ++ stem outfile ++ "_" ++ "extended" ++ "_sens.png",
       "plots/ETC" ++ v ++ "/imager_" ++ stem outfile ++ "_" ++ "extended" ++ "_sat.png"] ∧
    savedPaths (eventsOf (make_lrs_plots fs (some v) true outfile style)) =
      ["plots/ETC" ++ v ++ "/lrs_" ++ stem outfile ++ "_" ++ "point" ++ "_sens.png",
       "plots/ETC" ++ v ++ "/lrs_" ++ stem outfile ++ "_" ++ "point" ++ "_sat.png"] ∧
    savedPaths (eventsOf (make_mrs_plots fs (some v) true outfile style)) =
      ["plots/ETC" ++ v ++ "/mrs_" ++ stem outfile ++ "_" ++ "point" ++ "_sens.png",
       "plots/ETC" ++ v ++ "/mrs_" ++ stem outfile ++ "_" ++ "point" ++ "_sat.png",
       "plots/ETC" ++ v ++ "/mrs_" ++ stem outfile ++ "_" ++ "extended" ++ "_sens.png",
       "plots/ETC" ++ v ++ "/mrs_" ++ stem outfile ++ "_" ++ "extended" ++ "_sat.png"] ∧
    savedPaths (eventsOf (sens_plot fs (some v) true outfile style)) =
      ["plots/ETC" ++ v ++ "/sens_all_point_v" ++ v ++ ".png"] ∧
    savedPaths (eventsOf (bright_plot fs (some v) true outfile style)) =
      ["plots/ETC" ++ v ++ "/bright_all_point_v" ++ v ++ ".png"] := by
  have hIp := load_data_resolves fs v "imaging" "point" pIp (by decide) (by decide) hd h1
  have hIe := load_data_resolves fs v "imaging" "extended" pIe (by decide) (by decide) hd h2
  have hL := load_data_resolves fs v "lrs" "point" pL (by decide) (by decide) hd h3
  have hMp := load_data_resolves fs v "mrs" "point" pMp (by decide) (by decide) hd h4
  have hMe := load_data_resolves fs v "mrs" "extended" pMe (by decide) (by decide) hd h5
  refine ⟨?_, ?_, ?_, ?_, ?_⟩
  · simp [make_imager_plots, hIp, hIe, imagerModeEvents, savedPaths, eventsOf,
      saveEvents, pyFormat]
  · simp [make_lrs_plots, hL, lrsModeEvents, savedPaths, eventsOf, saveEvents, pyFormat]
  · simp [make_mrs_plots, hMp, hMe, mrsModeEvents, mrsBandCurves, ishort, imed, ilong,
      savedPaths, eventsOf, saveEvents, pyFormat]
  · simp [sens_plot, hIp, hL, hMp, mrsBandCurves, ishort, imed, ilong,
      savedPaths, eventsOf, saveEvents, pyFormat]
  · simp [bright_plot, hIp, hL, hMp, mrsBandCurves, ishort, imed, ilong,
      savedPaths, eventsOf, saveEvents, pyFormat]

/-- Witness for C6 (amended): the combined sensitivity routine and the
LRS routine instantiated on a concrete filesystem. -/
theorem saved_path_shapes_witness :
    savedPaths (eventsOf (sens_plot fsFix (some "14") true "out.png" "jdocs")) =
      ["plots/ETC" ++ "14" ++ "/sens_all_point_v" ++ "14" ++ ".png"] ∧
    savedPaths (eventsOf (make_lrs_plots fsFix (some "14") true "out.png" "jdocs")) =
      ["plots/ETC" ++ "14" ++ "/lrs_" ++ stem "out.png" ++ "_" ++ "point" ++ "_sens.png",
       "plots/ETC" ++ "14" ++ "/lrs_" ++ stem "out.png" ++ "_" ++ "point" ++ "_sat.png"] := by
  have h := saved_path_shapes fsFix "14" "out.png" "jdocs" "pth" "pth" "pth" "pth" "pth"
    rfl rfl rfl rfl rfl rfl
  exact ⟨h.2.2.2.1, h.2.1⟩

/-- C8: the `style` parameter of every plot routine is dead: for any
two style strings and otherwise identical arguments, every routine
returns identical results (same loads, same curves, same saved
files). -/
theorem style_param_dead (fs : FileSystem) (version : Option String) (save : Bool)
    (outfile s1 s2 : String) :
    make_imager_plots fs version save outfile s1
        = make_imager_plots fs version save outfile s2 ∧
    make_lrs_plots fs version save outfile s1
        = make_lrs_plots fs version save outfile s2 ∧
    make_mrs_plots fs version save outfile s1
        = make_mrs_plots fs version save outfile s2 ∧
    sens_plot fs version save outfile s1 = sens_plot fs version save outfile s2 ∧
    bright_plot fs version save outfile s1 = bright_plot fs version save outfile s2 :=
  ⟨rfl, rfl, rfl, rfl, rfl⟩

/-- C10: `sens_plot` and `bright_plot` ignore their outfile-stem
argument entirely: for any two outfile strings and otherwise identical
arguments they return identical results, so with the save flag set the
saved path depends only on the version. -/
theorem sens_bright_ignore_outfile (fs : FileSystem) (version : Option String)
    (save : Bool) (style o1 o2 : String) :
    sens_plot fs version save o1 style = sens_plot fs version save o2 style ∧
    bright_plot fs version save o1 style = bright_plot fs version save o2 style :=
  ⟨rfl, rfl⟩

end MiriPerformance
